import Mathlib

/-!
Verification of the mixchat k6 load-test harness.

Shallow embedding of the load-generation scripts under
`src/backend/load-tests/` (and the unnamed message-read script):

* `chat-comprehensive-load-test.js`         — namespace `Comp`
* `chat-direct-group-load-test.js`          — namespace `DG`
* `chat-ai-stress-test.js`                  — namespace `AIS`
* `chat-comprehensive-with-ai-load-test.js` — namespace `WAI`
* the unnamed group-message-read script     — namespace `MsgRead`

Pure data (stage lists, dispatch thresholds, success predicates, metric
recording) is translated directly; scenario bodies are modelled as trace
generators over an explicit environment that supplies the outcomes of the
remote HTTP calls and the random draws, so that control flow, the order of
the issued calls, and the metric/gauge updates mirror the JavaScript source.
-/

namespace MixChat

/-- One ramp stage of a k6 load profile: `{ duration, target }`. -/
structure Stage where
  duration : String
  target : Nat
  deriving DecidableEq, Repr

/-- `LOAD_PROFILES` of `chat-comprehensive-load-test.js` (lines 59-82). -/
def compLoadProfiles : List (String × List Stage) :=
  [ ("short",
      [⟨"30s", 20⟩, ⟨"1m", 50⟩, ⟨"1m", 100⟩, ⟨"30s", 0⟩]),
    ("medium",
      [⟨"1m", 20⟩, ⟨"2m", 100⟩, ⟨"2m", 200⟩, ⟨"1m", 300⟩, ⟨"30s", 0⟩]),
    ("full",
      [⟨"1m", 20⟩, ⟨"2m", 100⟩, ⟨"2m", 300⟩, ⟨"2m", 500⟩, ⟨"30s", 800⟩,
       ⟨"1m", 100⟩, ⟨"30s", 0⟩]) ]

/-- `LOAD_PROFILES` of `chat-direct-group-load-test.js` (lines 76-101). -/
def dgLoadProfiles : List (String × List Stage) :=
  [ ("short",
      [⟨"10s", 10⟩, ⟨"20s", 30⟩, ⟨"20s", 60⟩, ⟨"10s", 0⟩]),
    ("medium",
      [⟨"20s", 20⟩, ⟨"30s", 50⟩, ⟨"40s", 80⟩, ⟨"40s", 120⟩, ⟨"30s", 150⟩,
       ⟨"20s", 0⟩]),
    ("full",
      [⟨"20s", 20⟩, ⟨"30s", 50⟩, ⟨"40s", 80⟩, ⟨"40s", 120⟩, ⟨"40s", 150⟩,
       ⟨"20s", 0⟩]) ]

/-- `LOAD_PROFILES` of `chat-ai-stress-test.js` (lines 77-102). -/
def aisLoadProfiles : List (String × List Stage) :=
  [ ("light",
      [⟨"30s", 2⟩, ⟨"1m", 5⟩, ⟨"1m", 10⟩, ⟨"30s", 0⟩]),
    ("medium",
      [⟨"30s", 2⟩, ⟨"1m", 5⟩, ⟨"1m", 10⟩, ⟨"1m", 20⟩, ⟨"1m", 5⟩,
       ⟨"30s", 0⟩]),
    ("full",
      [⟨"30s", 2⟩, ⟨"1m", 5⟩, ⟨"1m", 10⟩, ⟨"1m", 20⟩, ⟨"1m", 30⟩,
       ⟨"1m", 50⟩, ⟨"1m", 5⟩, ⟨"30s", 0⟩]) ]

/-- `LOAD_PROFILES` of `chat-comprehensive-with-ai-load-test.js` (lines 112-137). -/
def waiLoadProfiles : List (String × List Stage) :=
  [ ("short",
      [⟨"30s", 20⟩, ⟨"1m", 50⟩, ⟨"1m", 100⟩, ⟨"30s", 0⟩]),
    ("medium",
      [⟨"1m", 30⟩, ⟨"2m", 100⟩, ⟨"2m", 200⟩, ⟨"2m", 300⟩, ⟨"1m", 50⟩,
       ⟨"30s", 0⟩]),
    ("full",
      [⟨"1m", 30⟩, ⟨"2m", 100⟩, ⟨"2m", 200⟩, ⟨"2m", 350⟩, ⟨"2m", 500⟩,
       ⟨"1m", 700⟩, ⟨"1m", 100⟩, ⟨"30s", 0⟩]) ]

/-- The fixed `options.stages` list of the unnamed group-message-read
script (its lines 44-53). -/
def msgReadStages : List Stage :=
  [⟨"30s", 50⟩, ⟨"1m", 50⟩, ⟨"30s", 100⟩, ⟨"1m", 100⟩, ⟨"30s", 200⟩,
   ⟨"1m", 200⟩, ⟨"30s", 0⟩]

/-- A stage list ends with a ramp-down to zero virtual users. -/
def lastTargetIsZero (stages : List Stage) : Bool :=
  match stages.getLast? with
  | some s => s.target == 0
  | none => false

/-- Every named stage list of every `LOAD_PROFILES` table in the repository,
plus the fixed stage list of the message-read script. -/
def allStageLists : List (List Stage) :=
  (compLoadProfiles ++ dgLoadProfiles ++ aisLoadProfiles ++ waiLoadProfiles).map
    Prod.snd ++ [msgReadStages]

/-- C5: for every configured load-duration profile (every named entry of
every `LOAD_PROFILES` table and the fixed stage list of the message-read
script), the final stage's target concurrency is 0, so every run ramps
down to zero virtual users. -/
theorem c5_all_profiles_ramp_to_zero :
    allStageLists.all lastTargetIsZero = true := by decide

/-! ## Weighted scenario dispatch (the per-iteration `default` functions) -/

/-- The scenario names that the per-iteration dispatch of each script can
pick.  One constructor per scenario function appearing in any of the four
scripts' `default` dispatch chains. -/
inductive Scen
  | casual | active | manager | aiChat
  | directFocused | mixed
  | translation | feedback
  | rolePlay | tutorPersonal | tutorSimilar | mixedAI
  deriving DecidableEq, Repr

/-- Dispatch chain of `chat-comprehensive-load-test.js` (lines 891-906):
`userType = randomIntBetween(0, 99)`, then 60% casual / 30% active /
5% manager / 5% AI. -/
def compDispatch (d : Nat) : Scen :=
  if d < 60 then .casual
  else if d < 90 then .active
  else if d < 95 then .manager
  else .aiChat

/-- Dispatch chain of `chat-comprehensive-with-ai-load-test.js`
(lines 938-958): 20% translation / 20% feedback / 15% AI chat /
30% casual / 10% active / 5% manager. -/
def waiDispatch (d : Nat) : Scen :=
  if d < 20 then .translation
  else if d < 40 then .feedback
  else if d < 55 then .aiChat
  else if d < 85 then .casual
  else if d < 95 then .active
  else .manager

/-- Dispatch chain of `chat-direct-group-load-test.js` (lines 1073-1090):
20% direct-focused / 50% casual / 20% active / 5% manager / 5% mixed. -/
def dgDispatch (d : Nat) : Scen :=
  if d < 20 then .directFocused
  else if d < 70 then .casual
  else if d < 90 then .active
  else if d < 95 then .manager
  else .mixed

/-- Dispatch chain of `chat-ai-stress-test.js` (lines 649-666):
30% role-play / 25% tutor-personal / 20% tutor-similar / 15% feedback /
10% mixed AI. -/
def aisDispatch (d : Nat) : Scen :=
  if d < 30 then .rolePlay
  else if d < 55 then .tutorPersonal
  else if d < 75 then .tutorSimilar
  else if d < 90 then .feedback
  else .mixedAI

/-- The cumulative-threshold table of a dispatch chain: each entry is the
chain's comparison threshold paired with the scenario it selects (the last
`else` branch carries threshold 100, the top of the draw range). -/
def compTable : List (Nat × Scen) :=
  [(60, .casual), (90, .active), (95, .manager), (100, .aiChat)]

/-- Threshold table of the with-AI comprehensive script's dispatch. -/
def waiTable : List (Nat × Scen) :=
  [(20, .translation), (40, .feedback), (55, .aiChat), (85, .casual),
   (95, .active), (100, .manager)]

/-- Threshold table of the direct/group script's dispatch. -/
def dgTable : List (Nat × Scen) :=
  [(20, .directFocused), (70, .casual), (90, .active), (95, .manager),
   (100, .mixed)]

/-- Threshold table of the AI stress script's dispatch. -/
def aisTable : List (Nat × Scen) :=
  [(30, .rolePlay), (55, .tutorPersonal), (75, .tutorSimilar),
   (90, .feedback), (100, .mixedAI)]

/-- Turn a cumulative-threshold table into half-open bands
`[lo, hi) → scenario`, starting from `lo`. -/
def bandsFrom (lo : Nat) : List (Nat × Scen) → List (Nat × Nat × Scen)
  | [] => []
  | (hi, s) :: rest => (lo, hi, s) :: bandsFrom hi rest

/-- All scenarios whose band of the table contains the draw `d`. -/
def selecting (table : List (Nat × Scen)) (d : Nat) : List Scen :=
  (bandsFrom 0 table).filterMap fun b =>
    if b.1 ≤ d && d < b.2.1 then some b.2.2 else none

/-- C1: for every draw in \[0,100) (the scripts draw an integer with
`randomIntBetween(0, 99)`), the bands of each script's threshold table
select exactly one scenario — the one the dispatch chain picks — so the
thresholds cover the whole range with no gaps and no overlaps. -/
theorem c1_dispatch_partitions_draw_range :
    ∀ d : Nat, d < 100 →
      selecting compTable d = [compDispatch d] ∧
      selecting waiTable d = [waiDispatch d] ∧
      selecting dgTable d = [dgDispatch d] ∧
      selecting aisTable d = [aisDispatch d] := by decide

/-- Witness for C1 at the concrete draw 42. -/
theorem c1_dispatch_partitions_draw_range_witness :
    (42 : Nat) < 100 ∧
      (selecting compTable 42 = [compDispatch 42] ∧
       selecting waiTable 42 = [waiDispatch 42] ∧
       selecting dgTable 42 = [dgDispatch 42] ∧
       selecting aisTable 42 = [aisDispatch 42]) :=
  ⟨by decide, c1_dispatch_partitions_draw_range 42 (by decide)⟩

/-! ## Join-group-room success predicates (C3) -/

/-- Success predicate of `joinGroupRoom` in
`chat-comprehensive-load-test.js` (line 375): the check passes on status
200 or 400, with the source comment marking 400 as "already joined". -/
def compJoinCheck (status : Nat) : Bool :=
  status == 200 || status == 400

/-- Success predicate of `joinGroupRoom` in
`chat-direct-group-load-test.js` (line 391): the check passes only on
status 200; the source comment says the backend also returns 200 for an
already-joined member. -/
def dgJoinCheck (status : Nat) : Bool :=
  status == 200

/-- The status code that `chat-comprehensive-load-test.js` documents as the
backend's "already a member" response to a join (comment on its line 375). -/
def alreadyMemberStatus : Nat := 400

/-- C3 counterexample: the claim says every join-group-room success
predicate records an "already a member" response as success regardless of
which status code carries it; but the direct/group script's predicate
rejects status 400 — the very code the comprehensive script documents as
"already joined" and accepts. -/
theorem c3_counterexample_dg_join_rejects_400 :
    dgJoinCheck alreadyMemberStatus = false ∧
    compJoinCheck alreadyMemberStatus = true := by decide

/-- C3 amended: each script treats the specific already-a-member response
of its backend as success — the comprehensive script's predicate accepts
status 400 (already a member) alongside 200, while the direct/group
script's predicate accepts only status 200 (its backend reports an
already-member join with 200) and records any other status as failure. -/
theorem c3_join_predicates_by_script :
    compJoinCheck 200 = true ∧ compJoinCheck 400 = true ∧
    dgJoinCheck 200 = true ∧
    ∀ s : Nat, s ≠ 200 → dgJoinCheck s = false := by
  refine ⟨rfl, rfl, rfl, fun s hs => ?_⟩
  simpa [dgJoinCheck] using hs

/-- Witness for the amended C3 at the concrete status 404. -/
theorem c3_join_predicates_by_script_witness :
    compJoinCheck 200 = true ∧ compJoinCheck 400 = true ∧
    dgJoinCheck 200 = true ∧ (404 ≠ 200 → dgJoinCheck 404 = false) :=
  ⟨c3_join_predicates_by_script.1, c3_join_predicates_by_script.2.1,
   c3_join_predicates_by_script.2.2.1,
   fun h => c3_join_predicates_by_script.2.2.2 404 h⟩

/-! ## AI-message outcome recording (C4) -/

/-- The metric increments performed by one call of `sendAIMessage` in
`chat-ai-stress-test.js` (lines 306-325), as a function of whether the
check succeeded and whether the response timed out.  Each field is the
amount added to the corresponding counter or rate metric by that call. -/
structure AISRecord where
  aiResponseSuccess : Nat
  aiResponseFailed : Nat
  aiResponseTimeout : Nat
  aiSuccessRateAdd : Nat
  aiTimeoutRateAdd : Nat
  aiErrorRateAdd : Nat
  deriving DecidableEq, Repr

/-- Outcome recording of `sendAIMessage` in `chat-ai-stress-test.js`:
success adds (1,0,0) to the rates; a timed-out failure adds 1 to the
timeout rate and 0 to the error rate; any other failure adds 0 to the
timeout rate and 1 to the error rate. -/
def aisRecordSend (success timedOut : Bool) : AISRecord :=
  if success then
    { aiResponseSuccess := 1, aiResponseFailed := 0, aiResponseTimeout := 0,
      aiSuccessRateAdd := 1, aiTimeoutRateAdd := 0, aiErrorRateAdd := 0 }
  else if timedOut then
    { aiResponseSuccess := 0, aiResponseFailed := 1, aiResponseTimeout := 1,
      aiSuccessRateAdd := 0, aiTimeoutRateAdd := 1, aiErrorRateAdd := 0 }
  else
    { aiResponseSuccess := 0, aiResponseFailed := 1, aiResponseTimeout := 0,
      aiSuccessRateAdd := 0, aiTimeoutRateAdd := 0, aiErrorRateAdd := 1 }

/-- The metric increments of one call of `sendAIMessage` in
`chat-comprehensive-with-ai-load-test.js` (lines 546-565).  That script
defines no generic error-rate metric for the AI action; the timeout rate
is the only failure-classifying rate. -/
structure WAIRecord where
  aiResponseSuccess : Nat
  aiResponseFailed : Nat
  aiResponseTimeout : Nat
  aiSuccessRateAdd : Nat
  aiTimeoutRateAdd : Nat
  deriving DecidableEq, Repr

/-- Outcome recording of `sendAIMessage` in
`chat-comprehensive-with-ai-load-test.js`. -/
def waiRecordSend (success timedOut : Bool) : WAIRecord :=
  if success then
    { aiResponseSuccess := 1, aiResponseFailed := 0, aiResponseTimeout := 0,
      aiSuccessRateAdd := 1, aiTimeoutRateAdd := 0 }
  else if timedOut then
    { aiResponseSuccess := 0, aiResponseFailed := 1, aiResponseTimeout := 1,
      aiSuccessRateAdd := 0, aiTimeoutRateAdd := 1 }
  else
    { aiResponseSuccess := 0, aiResponseFailed := 1, aiResponseTimeout := 0,
      aiSuccessRateAdd := 0, aiTimeoutRateAdd := 0 }

/-- C4: for every AI-message call outcome, the timeout rate and the
generic error rate are never both incremented; a timed-out call adds 1 to
the timeout rate and 0 to the error rate, a non-timeout failure adds 0 to
the timeout rate and 1 to the error rate (AI stress script); in the with-AI
comprehensive script, which has no error-rate metric for this action, the
timeout rate is likewise incremented exactly on timed-out failures. -/
theorem c4_timeout_and_error_mutually_exclusive :
    ∀ success timedOut : Bool,
      (((aisRecordSend success timedOut).aiTimeoutRateAdd == 1) &&
       ((aisRecordSend success timedOut).aiErrorRateAdd == 1)) = false ∧
      aisRecordSend false true =
        { aiResponseSuccess := 0, aiResponseFailed := 1,
          aiResponseTimeout := 1, aiSuccessRateAdd := 0,
          aiTimeoutRateAdd := 1, aiErrorRateAdd := 0 } ∧
      aisRecordSend false false =
        { aiResponseSuccess := 0, aiResponseFailed := 1,
          aiResponseTimeout := 0, aiSuccessRateAdd := 0,
          aiTimeoutRateAdd := 0, aiErrorRateAdd := 1 } ∧
      ((waiRecordSend success timedOut).aiTimeoutRateAdd == 1)
        = (!success && timedOut) := by decide

/-! ## Token cache of the direct/group script's per-iteration auth (C2)

`chat-direct-group-load-test.js` lines 1051-1070: each iteration of the
`default` function looks the virtual user's id up in `tokenCache`; only on
a miss does it call the login endpoint, recording a successful login back
into the cache and skipping the iteration on failure.  Within one virtual
user the cache object persists across iterations, so a run of iterations
is a fold of this step over the cache. -/

namespace DG

/-- Bearer token returned by the login endpoint. -/
abbrev Token := String

/-- The `tokenCache` object, keyed by user id.  The JS property write
`tokenCache[user.id] = token` is modelled by consing (later writes
shadow earlier ones). -/
abbrev Cache := List (Nat × Token)

/-- JS property read `tokenCache[user.id]`. -/
def lookupCache : Cache → Nat → Option Token
  | [], _ => none
  | (v, t) :: rest, uid => if v == uid then some t else lookupCache rest uid

/-- The observable remote calls of the per-iteration auth logic. -/
inductive AuthEvent
  | loginCall (uid : Nat)
  deriving DecidableEq, Repr

/-- Result of one iteration's auth prologue: the remote calls issued, the
cache afterwards, and the token the iteration proceeds with (`none` means
the iteration was skipped because login failed). -/
structure IterAuth where
  events : List AuthEvent
  cache : Cache
  usedToken : Option Token
  deriving DecidableEq, Repr

/-- Lines 1059-1070 of `chat-direct-group-load-test.js`: take the cached
token if present; otherwise call login with outcome `loginResult`, caching
a returned token or skipping the iteration on failure. -/
def iterAuth (cache : Cache) (uid : Nat) (loginResult : Option Token) :
    IterAuth :=
  match lookupCache cache uid with
  | some t => { events := [], cache := cache, usedToken := some t }
  | none =>
    match loginResult with
    | some t =>
      { events := [AuthEvent.loginCall uid], cache := (uid, t) :: cache,
        usedToken := some t }
    | none =>
      { events := [AuthEvent.loginCall uid], cache := cache,
        usedToken := none }

/-- A sequence of iterations of one virtual user: each entry is the user id
the iteration runs as together with the login outcome the backend would
return if login were called.  Returns the concatenated auth events and the
final cache. -/
def runIters (cache : Cache) : List (Nat × Option Token) →
    List AuthEvent × Cache
  | [] => ([], cache)
  | (uid, lr) :: rest =>
    let r := iterAuth cache uid lr
    let rec2 := runIters r.cache rest
    (r.events ++ rec2.1, rec2.2)

theorem loginCall_not_mem_iterAuth (c : Cache) (uid v : Nat)
    (lr : Option Token) (h : (lookupCache c uid).isSome = true) :
    AuthEvent.loginCall uid ∉ (iterAuth c v lr).events := by
  by_cases hv : v = uid
  · subst hv
    obtain ⟨t, ht⟩ := Option.isSome_iff_exists.mp h
    simp [iterAuth, ht]
  · unfold iterAuth
    cases hlv : lookupCache c v with
    | some t => simp
    | none =>
      cases lr with
      | some t =>
        simp only [List.mem_singleton]
        intro hmem
        exact hv (AuthEvent.loginCall.inj hmem).symm
      | none =>
        simp only [List.mem_singleton]
        intro hmem
        exact hv (AuthEvent.loginCall.inj hmem).symm

theorem lookupCache_isSome_after_iterAuth (c : Cache) (uid v : Nat)
    (lr : Option Token) (h : (lookupCache c uid).isSome = true) :
    (lookupCache (iterAuth c v lr).cache uid).isSome = true := by
  unfold iterAuth
  cases hlv : lookupCache c v with
  | some t => simpa using h
  | none =>
    cases lr with
    | none => simpa using h
    | some t =>
      simp only [lookupCache]
      by_cases hv : v == uid
      · simp [hv]
      · simpa [hv] using h

theorem loginCall_not_mem_runIters (iters : List (Nat × Option Token)) :
    ∀ (c : Cache) (uid : Nat), (lookupCache c uid).isSome = true →
      AuthEvent.loginCall uid ∉ (runIters c iters).1 := by
  induction iters with
  | nil => intro c uid _; simp [runIters]
  | cons it rest ih =>
    intro c uid h
    obtain ⟨v, lr⟩ := it
    simp only [runIters, List.mem_append]
    rintro (hmem | hmem)
    · exact loginCall_not_mem_iterAuth c uid v lr h hmem
    · exact ih _ uid (lookupCache_isSome_after_iterAuth c uid v lr h) hmem

end DG

/-- C2: once a token for a user id is recorded in the token cache of the
direct/group script, no subsequent iteration run with that cache invokes
the login endpoint for that user id, and a single iteration for that user
reuses the cached token, leaving the cache unchanged and issuing no remote
auth call.  (The comprehensive script keeps no token cache, so the claim's
antecedent — a login recorded in the cache — never arises there.) -/
theorem c2_cached_token_never_relogs (cache : DG.Cache)
    (iters : List (Nat × Option DG.Token)) (uid : Nat)
    (lr : Option DG.Token)
    (h : (DG.lookupCache cache uid).isSome = true) :
    DG.AuthEvent.loginCall uid ∉ (DG.runIters cache iters).1 ∧
    DG.iterAuth cache uid lr =
      { events := [], cache := cache,
        usedToken := DG.lookupCache cache uid } := by
  constructor
  · exact DG.loginCall_not_mem_runIters iters cache uid h
  · obtain ⟨t, ht⟩ := Option.isSome_iff_exists.mp h
    simp [DG.iterAuth, ht]

/-- Witness for C2: user 7 is cached; the run `[user 7, user 3, user 7]`
never logs user 7 in again, and user 7's iteration reuses the token. -/
theorem c2_cached_token_never_relogs_witness :
    (DG.lookupCache [(7, "tok7")] 7).isSome = true ∧
    (DG.AuthEvent.loginCall 7 ∉
        (DG.runIters [(7, "tok7")]
          [(7, none), (3, some "tok3"), (7, none)]).1 ∧
      DG.iterAuth [(7, "tok7")] 7 none =
        { events := [], cache := [(7, "tok7")],
          usedToken := DG.lookupCache [(7, "tok7")] 7 }) :=
  ⟨by decide,
   c2_cached_token_never_relogs [(7, "tok7")]
     [(7, none), (3, some "tok3"), (7, none)] 7 none (by decide)⟩

/-! ## Scenario bodies as traces of observable actions

A scenario function is modelled as a function from an environment — the
outcomes the remote endpoints would return and the random draws the
scenario makes — to the ordered list of observable actions it performs
(remote calls, gauge updates, think-time sleeps). -/

/-- A chat room as the scenario code observes it: its id and whether the
room object carries a `partner` property (a direct room). -/
structure Room where
  id : Nat
  isDirect : Bool
  deriving DecidableEq, Repr

/-- Observable actions of a scenario body. -/
inductive Ev
  | loginCall
  | gaugeUsers (d : Int)
  | gaugeRooms (d : Int)
  | listDirect
  | listGroup
  | listAI
  | listPublic
  | joinRoom (roomId : Nat)
  | readMessages (roomId : Nat) (ctype : String) (size : Nat)
  | sendMessage (roomId : Nat) (ctype : String)
  | createGroup
  | createAI
  | invite (memberId : Nat)
  | transferOwner (memberId : Nat)
  | leaveRoom (roomId : Nat)
  | feedback
  | seedMessages (roomId : Nat) (count : Nat)
  | sleepEv
  deriving DecidableEq, Repr

/-- `randomItem(list)` for a nonempty room list, with the draw supplied as
an index. -/
def item (l : List Room) (i : Nat) : Room :=
  l.getD (i % l.length) ⟨0, false⟩

/-- The `chatRoomType` string the comprehensive script derives from
`room.hasOwnProperty("partner")`. -/
def ctypeOf (r : Room) : String :=
  if r.isDirect then "DIRECT" else "GROUP"

namespace Comp

/-- Environment of `casualUserScenario` (comprehensive script, lines
587-629): login outcome, the room lists the backend returns, the shared
fixtures, and the scenario's random draws. -/
structure CasualEnv where
  loginOk : Bool
  directRooms : List Room
  groupRooms : List Room
  sharedRooms : List Room
  sharedPick : Nat
  readDraw : Bool
  readPick : Nat
  sendDraw : Bool
  sendPick : Nat
  deriving Repr

/-- Trace of `casualUserScenario`: login; on success bump the gauge, list
direct and group rooms, join a shared room when the combined list is empty,
read on the 70% draw (only when the pre-join combined list was nonempty,
since the list is not re-queried), send on the 30% draw, drop the gauge. -/
def casualTrace (e : CasualEnv) : List Ev :=
  Ev.loginCall ::
    (if e.loginOk = false then [] else
      let allRooms := e.directRooms ++ e.groupRooms
      [Ev.gaugeUsers 1, Ev.listDirect, Ev.listGroup] ++
      (if allRooms.isEmpty && !e.sharedRooms.isEmpty then
        [Ev.joinRoom (item e.sharedRooms e.sharedPick).id, Ev.sleepEv]
      else []) ++
      (if e.readDraw && !allRooms.isEmpty then
        let room := item allRooms e.readPick
        [Ev.readMessages room.id (ctypeOf room) 25]
      else []) ++
      [Ev.sleepEv] ++
      (if e.sendDraw && !allRooms.isEmpty then
        let room := item allRooms e.sendPick
        [Ev.sendMessage room.id (ctypeOf room)]
      else []) ++
      [Ev.gaugeUsers (-1)])

/-- Environment of `activeChatScenario` (lines 635-677). -/
structure ActiveEnv where
  loginOk : Bool
  groupRooms1 : List Room
  sharedRooms : List Room
  sharedPick : Nat
  groupRooms2 : List Room
  roomPick : Nat
  iters : Nat
  deriving Repr

/-- Trace of `activeChatScenario`: login; bump gauge; list group rooms,
joining a shared room and re-listing when empty; early exit (dropping the
gauge) when still empty; otherwise a read/send loop, then drop the gauge. -/
def activeTrace (e : ActiveEnv) : List Ev :=
  Ev.loginCall ::
    (if e.loginOk = false then [] else
      let joined := e.groupRooms1.isEmpty && !e.sharedRooms.isEmpty
      let gr := if joined then e.groupRooms2 else e.groupRooms1
      [Ev.gaugeUsers 1, Ev.listGroup] ++
      (if joined then
        [Ev.joinRoom (item e.sharedRooms e.sharedPick).id, Ev.listGroup]
      else []) ++
      (if gr.isEmpty then [Ev.gaugeUsers (-1)]
      else
        let room := item gr e.roomPick
        (List.range e.iters).flatMap (fun _ =>
          [Ev.readMessages room.id "GROUP" 25, Ev.sleepEv,
           Ev.sendMessage room.id "GROUP", Ev.sleepEv]) ++
        [Ev.gaugeUsers (-1)]))

/-- Environment of `aiChatScenario` (lines 684-746). -/
structure AIEnv where
  loginOk : Bool
  aiRooms : List Room
  created : Option Room
  roomPick : Nat
  convs : Nat
  feedbackDraw : Bool
  deriving Repr

/-- Trace of `aiChatScenario`: login; bump gauge; list AI rooms, creating
one when none exist; early exit (dropping the gauge) when creation failed;
otherwise a conversation loop, an optional feedback call, then drop the
gauge. -/
def aiTrace (e : AIEnv) : List Ev :=
  Ev.loginCall ::
    (if e.loginOk = false then [] else
      let needCreate := e.aiRooms.isEmpty
      let rooms :=
        if needCreate then
          (match e.created with | some r => [r] | none => [])
        else e.aiRooms
      [Ev.gaugeUsers 1, Ev.listAI] ++
      (if needCreate then [Ev.createAI] else []) ++
      (if rooms.isEmpty then [Ev.gaugeUsers (-1)]
      else
        let aiRoom := item rooms e.roomPick
        (List.range e.convs).flatMap (fun _ =>
          [Ev.sendMessage aiRoom.id "AI", Ev.sleepEv,
           Ev.readMessages aiRoom.id "AI" 25, Ev.sleepEv]) ++
        (if e.feedbackDraw then [Ev.feedback] else []) ++
        [Ev.gaugeUsers (-1)]))

/-- Environment of `roomManagerScenario` (lines 752-815). -/
structure MgrEnv where
  loginOk : Bool
  ownId : Nat
  pick0 : Nat
  pick1 : Nat
  pick2 : Nat
  created : Option Room
  extraDraw : Bool
  extraPick : Nat
  transferDraw : Bool
  leaveDraw : Bool
  deriving Repr

/-- The member ids the manager scenario collects from its three random
picks, dropping its own id. -/
def mgrInvitees (e : MgrEnv) : List Nat :=
  [e.pick0, e.pick1, e.pick2].filter (fun p => p != e.ownId)

/-- Trace of `roomManagerScenario`: login; bump gauge; create a group room
with the collected invitees; when creation succeeded, bump the room gauge,
optionally invite one more member, send a welcome message, optionally
transfer ownership, optionally leave the room (dropping the room gauge);
finally drop the user gauge. -/
def mgrTrace (e : MgrEnv) : List Ev :=
  Ev.loginCall ::
    (if e.loginOk = false then [] else
      let invitees := mgrInvitees e
      [Ev.gaugeUsers 1, Ev.createGroup] ++
      (match e.created with
      | none => []
      | some room =>
        [Ev.gaugeRooms 1, Ev.sleepEv] ++
        (if e.extraDraw && e.extraPick != e.ownId
            && !(invitees.contains e.extraPick) then
          [Ev.invite e.extraPick, Ev.sleepEv]
        else []) ++
        [Ev.sendMessage room.id "GROUP", Ev.sleepEv] ++
        (if e.transferDraw && !invitees.isEmpty then
          [Ev.transferOwner (invitees.headD 0), Ev.sleepEv]
        else []) ++
        (if e.leaveDraw then [Ev.leaveRoom room.id, Ev.gaugeRooms (-1)]
        else [])) ++
      [Ev.gaugeUsers (-1)])

end Comp

/-- The sequence of values a trace adds to the `activeUsers` gauge. -/
def gaugeUsersDeltas (t : List Ev) : List Int :=
  t.filterMap fun e =>
    match e with
    | Ev.gaugeUsers d => some d
    | _ => none

theorem gaugeUsersDeltas_append (l1 l2 : List Ev) :
    gaugeUsersDeltas (l1 ++ l2) =
      gaugeUsersDeltas l1 ++ gaugeUsersDeltas l2 :=
  List.filterMap_append l1 l2 _

theorem filterMap_flatMap_const {α β γ : Type} (l : List α) (body : List β)
    (f : β → Option γ) (h : body.filterMap f = []) :
    (l.flatMap fun _ => body).filterMap f = [] := by
  induction l with
  | nil => rfl
  | cons a rest ih => rw [List.flatMap_cons, List.filterMap_append, h, ih]; rfl

theorem gauge_casualTrace (e : Comp.CasualEnv) :
    gaugeUsersDeltas (Comp.casualTrace e) =
      if e.loginOk then [1, -1] else [] := by
  cases h : e.loginOk <;>
    simp [Comp.casualTrace, h, gaugeUsersDeltas, List.filterMap_append,
      apply_ite (List.filterMap _)]

theorem gauge_activeTrace (e : Comp.ActiveEnv) :
    gaugeUsersDeltas (Comp.activeTrace e) =
      if e.loginOk then [1, -1] else [] := by
  cases h : e.loginOk <;>
    simp [Comp.activeTrace, h, gaugeUsersDeltas, List.filterMap_append,
      apply_ite (List.filterMap _), filterMap_flatMap_const]

theorem gauge_aiTrace (e : Comp.AIEnv) :
    gaugeUsersDeltas (Comp.aiTrace e) =
      if e.loginOk then [1, -1] else [] := by
  cases h : e.loginOk <;>
    simp [Comp.aiTrace, h, gaugeUsersDeltas, List.filterMap_append,
      apply_ite (List.filterMap _), filterMap_flatMap_const]

theorem gauge_mgrTrace (e : Comp.MgrEnv) :
    gaugeUsersDeltas (Comp.mgrTrace e) =
      if e.loginOk then [1, -1] else [] := by
  cases h : e.loginOk
  · simp [Comp.mgrTrace, h, gaugeUsersDeltas]
  · cases hc : e.created <;>
      simp [Comp.mgrTrace, h, hc, gaugeUsersDeltas, List.filterMap_append,
        apply_ite (List.filterMap _)]

/-- C10: in every scenario function of the comprehensive load test, the
`activeUsers` gauge receives exactly one `+1` (after a successful login)
and exactly one `-1` (on whichever exit path is taken), and nothing when
login fails — so every completed scenario iteration contributes a net
change of zero to the gauge.  The gauge-delta sequence of each scenario's
trace is exactly `[1, -1]` on successful login and `[]` otherwise. -/
theorem c10_active_users_gauge_balanced (e1 : Comp.CasualEnv)
    (e2 : Comp.ActiveEnv) (e3 : Comp.AIEnv) (e4 : Comp.MgrEnv) :
    gaugeUsersDeltas (Comp.casualTrace e1) =
        (if e1.loginOk then [1, -1] else []) ∧
    gaugeUsersDeltas (Comp.activeTrace e2) =
        (if e2.loginOk then [1, -1] else []) ∧
    gaugeUsersDeltas (Comp.aiTrace e3) =
        (if e3.loginOk then [1, -1] else []) ∧
    gaugeUsersDeltas (Comp.mgrTrace e4) =
        (if e4.loginOk then [1, -1] else []) :=
  ⟨gauge_casualTrace e1, gauge_activeTrace e2, gauge_aiTrace e3,
   gauge_mgrTrace e4⟩

/-! ## The casual-scenario example trace (C8) -/

/-- The situation described by the claim's example trace, played against
`casualUserScenario` of the comprehensive script: login succeeds, both
room-list queries return empty, one shared room fixture (id 3) exists, the
70% read draw is taken and the 30% send draw is not. -/
def c8CompEnv : Comp.CasualEnv :=
  { loginOk := true, directRooms := [], groupRooms := [],
    sharedRooms := [⟨3, false⟩], sharedPick := 0,
    readDraw := true, readPick := 0, sendDraw := false, sendPick := 0 }

/-- C8 counterexample: on the claim's own starting conditions, the
comprehensive script's casual scenario joins the shared room but never
queries the room list again and never reads messages — its read branch
requires the pre-join (empty) combined list to be nonempty, and there is
no caching of the obtained token.  The claimed trace elements "second
room-list query" and "message read with page size 25" do not occur. -/
theorem c8_counterexample_comp_casual_no_read :
    Comp.casualTrace c8CompEnv =
      [Ev.loginCall, Ev.gaugeUsers 1, Ev.listDirect, Ev.listGroup,
       Ev.joinRoom 3, Ev.sleepEv, Ev.sleepEv, Ev.gaugeUsers (-1)] ∧
    (Comp.casualTrace c8CompEnv).countP
      (fun e => match e with
        | Ev.readMessages _ _ _ => true
        | _ => false) = 0 ∧
    ((Comp.casualTrace c8CompEnv).dropWhile
        (fun e => !(e == Ev.joinRoom 3))).countP
      (fun e => e == Ev.listDirect || e == Ev.listGroup) = 0 := by
  refine ⟨rfl, rfl, rfl⟩

/-- A public group room as the direct/group script's casual scenario
observes it: id and whether it has a password. -/
structure PRoom where
  id : Nat
  hasPassword : Bool
  deriving DecidableEq, Repr

/-- `randomItem` on a list of room ids, draw supplied as an index. -/
def itemNat (l : List Nat) (i : Nat) : Nat :=
  l.getD (i % l.length) 0

/-- `randomItem` on a list of public rooms, draw supplied as an index. -/
def itemP (l : List PRoom) (i : Nat) : PRoom :=
  l.getD (i % l.length) ⟨0, false⟩

namespace DG

/-- Environment of `groupChatCasualScenario`
(`chat-direct-group-load-test.js`, lines 656-710): the successive
group-room-list results the backend returns (before joining, after joining
a shared room, after joining a public room), the shared fixtures, the
public room list, and the scenario's random draws.  Rooms are carried as
ids. -/
structure CasualEnv where
  groupRooms1 : List Nat
  sharedRooms : List Nat
  sharedPick : Nat
  groupRooms2 : List Nat
  publicRooms : List MixChat.PRoom
  publicPick : Nat
  groupRooms3 : List Nat
  roomPick : Nat
  readDraw : Bool
  sendDraw : Bool
  deriving Repr

/-- Trace of `groupChatCasualScenario`: bump the gauge (the login happened
in the iteration prologue, `iterAuth`); list group rooms; when empty, join
a shared room and re-list, then fall back to a password-free public room;
when a room is available, read messages with page size 30 on the 70% draw
and send on the 30% draw; drop the gauge. -/
def casualTrace (e : CasualEnv) : List Ev :=
  let fallback : List Ev × List Nat :=
    if e.groupRooms1.isEmpty then
      let afterShared : List Ev × List Nat :=
        if !e.sharedRooms.isEmpty then
          ([Ev.joinRoom (itemNat e.sharedRooms e.sharedPick), Ev.sleepEv,
            Ev.listGroup], e.groupRooms2)
        else ([], e.groupRooms1)
      if afterShared.2.isEmpty then
        let npr := e.publicRooms.filter (fun r => !r.hasPassword)
        if !npr.isEmpty then
          (afterShared.1 ++
            [Ev.listPublic, Ev.joinRoom (itemP npr e.publicPick).id,
             Ev.sleepEv, Ev.listGroup], e.groupRooms3)
        else (afterShared.1 ++ [Ev.listPublic], afterShared.2)
      else afterShared
    else ([], e.groupRooms1)
  [Ev.gaugeUsers 1, Ev.listGroup, Ev.sleepEv] ++ fallback.1 ++
  (if fallback.2.isEmpty then [Ev.gaugeUsers (-1)]
  else
    let room := itemNat fallback.2 e.roomPick
    (if e.readDraw then [Ev.readMessages room "GROUP" 30, Ev.sleepEv]
    else []) ++
    (if e.sendDraw then [Ev.sendMessage room "GROUP", Ev.sleepEv]
    else []) ++
    [Ev.gaugeUsers (-1)])

end DG

/-- The claim's example situation played against the direct/group script's
casual scenario: the first room-list is empty, shared room 3 exists, the
re-list after joining contains room 3, the read draw is taken and the send
draw is not. -/
def c8DGEnv : DG.CasualEnv :=
  { groupRooms1 := [], sharedRooms := [3], sharedPick := 0,
    groupRooms2 := [3], publicRooms := [], publicPick := 0,
    groupRooms3 := [], roomPick := 0, readDraw := true, sendDraw := false }

/-- C8 amended: in the direct/group script, a virtual user with no cached
token logs in once in the iteration prologue and the token is recorded in
the cache; its casual scenario then lists rooms (empty), joins the shared
room fixture, re-lists rooms (now containing it), and on the 70% draw
reads messages with page size 30 — not 25 — with no send on the untaken
30% draw.  (In the comprehensive script's casual scenario no token is
cached, the list is not re-queried after the join, and the read is skipped
entirely on these conditions.) -/
theorem c8_amended_dg_casual_trace :
    DG.iterAuth [] 7 (some "tok") =
      { events := [DG.AuthEvent.loginCall 7], cache := [(7, "tok")],
        usedToken := some "tok" } ∧
    DG.casualTrace c8DGEnv =
      [Ev.gaugeUsers 1, Ev.listGroup, Ev.sleepEv, Ev.joinRoom 3, Ev.sleepEv,
       Ev.listGroup, Ev.readMessages 3 "GROUP" 30, Ev.sleepEv,
       Ev.gaugeUsers (-1)] :=
  ⟨rfl, rfl⟩

/-! ## Setup: profile lookup, fixture creation, partial-failure handling

Both the comprehensive and the direct/group script log
`LOAD_PROFILES[TEST_DURATION].length` at the top of `setup` (their lines
825 and 907), before any HTTP request.  When `TEST_DURATION` names no
profile, that lookup yields `undefined` and the property access throws a
TypeError, so `setup` aborts with no request issued and k6 stops the run:
the error branch of the setup models below. -/

/-- The JS object lookup `LOAD_PROFILES[TEST_DURATION]`. -/
def stagesFor (profiles : List (String × List Stage)) (name : String) :
    Option (List Stage) :=
  match profiles.find? (fun p => p.1 == name) with
  | some p => some p.2
  | none => none

/-- The error that aborts `setup` when the profile lookup yields
`undefined`: reading `.length` of `undefined` throws. -/
def configLookupError : String :=
  "TypeError: cannot read length of undefined"

namespace DG

/-- Environment of the direct/group script's `setup` (lines 901-1049):
the batched login outcome per user id, the outcome of the owner login
retry, and the created room id per fixture index. -/
structure SetupEnv where
  loginResult : Nat → Option Token
  retryOwner : Option Token
  createRoom : Nat → Option Nat

/-- The fixed user pool, ids 1 to 100 (script lines 151-162). -/
def userIds : List Nat := List.range' 1 100

/-- The token cache the batched login loop builds (lines 922-953): every
successful login is recorded under the user's id, every failure is logged
and skipped. -/
def buildCache (f : Nat → Option Token) : List Nat → Cache
  | [] => []
  | uid :: rest =>
    match f uid with
    | some t => (uid, t) :: buildCache f rest
    | none => buildCache f rest

/-- Shared-room sizes of the fixture loop (line 979). -/
def roomSizes : List Nat :=
  [5, 5, 10, 10, 10, 20, 20, 30, 30, 50, 50, 50, 100, 100, 100]

/-- The fixture-creation loop (lines 981-1039): one create-room call per
size entry; a created room is recorded and seeded with
`min(roomSize * 2, 20)` initial messages. -/
def createRoomsFrom (env : SetupEnv) : List Nat → List Ev × List Nat
  | [] => ([], [])
  | i :: rest =>
    let roomSize := roomSizes.getD i 0
    let rec2 := createRoomsFrom env rest
    match env.createRoom i with
    | some rid =>
      (Ev.createGroup :: Ev.seedMessages rid (min (roomSize * 2) 20) ::
        rec2.1, rid :: rec2.2)
    | none => (Ev.createGroup :: rec2.1, rec2.2)

/-- The value `setup` returns to the iterations and to `teardown`. -/
structure SetupData where
  tokenCache : Cache
  sharedRooms : List Nat
  deriving Repr

/-- `setup` of the direct/group script: abort on an unrecognized profile
name (the `.length` access, line 907); otherwise batch-login all 100
users, recover the owner token (user 1) with a retry, and create the
shared fixtures only when an owner token exists. -/
def dgSetup (profileName : String) (env : SetupEnv) :
    List Ev × Except String SetupData :=
  match stagesFor dgLoadProfiles profileName with
  | none => ([], Except.error configLookupError)
  | some _ =>
    let loginEvents := userIds.map (fun _ => Ev.loginCall)
    let cache0 := buildCache env.loginResult userIds
    let afterOwner : List Ev × Cache × Option Token :=
      match lookupCache cache0 1 with
      | some t => ([], cache0, some t)
      | none =>
        match env.retryOwner with
        | some t => ([Ev.loginCall], (1, t) :: cache0, some t)
        | none => ([Ev.loginCall], cache0, none)
    match afterOwner.2.2 with
    | none =>
      (loginEvents ++ afterOwner.1,
        Except.ok { tokenCache := afterOwner.2.1, sharedRooms := [] })
    | some _ =>
      let rooms := createRoomsFrom env (List.range roomSizes.length)
      (loginEvents ++ afterOwner.1 ++ rooms.1,
        Except.ok { tokenCache := afterOwner.2.1, sharedRooms := rooms.2 })

theorem lookupCache_buildCache_not_mem (f : Nat → Option Token)
    (uids : List Nat) (uid : Nat) (h : uid ∉ uids) :
    lookupCache (buildCache f uids) uid = none := by
  induction uids with
  | nil => rfl
  | cons v rest ih =>
    simp only [List.mem_cons, not_or] at h
    have hv : (v == uid) = false := by
      simp [Ne.symm h.1]
    cases hf : f v with
    | some t => simp [buildCache, hf, lookupCache, hv, ih h.2]
    | none => simp [buildCache, hf, ih h.2]

theorem lookupCache_buildCache (f : Nat → Option Token) (uids : List Nat)
    (uid : Nat) (hmem : uid ∈ uids) (hnd : uids.Nodup) :
    lookupCache (buildCache f uids) uid = f uid := by
  induction uids with
  | nil => cases hmem
  | cons v rest ih =>
    rcases List.mem_cons.mp hmem with rfl | hmem2
    · cases hf : f uid with
      | some t => simp [buildCache, hf, lookupCache]
      | none =>
        have hnm : uid ∉ rest := (List.nodup_cons.mp hnd).1
        simp [buildCache, hf,
          lookupCache_buildCache_not_mem f rest uid hnm]
    · have hvne : (v == uid) = false := by
        have : v ≠ uid := by
          rintro rfl
          exact (List.nodup_cons.mp hnd).1 hmem2
        simp [this]
      have ih2 := ih hmem2 (List.nodup_cons.mp hnd).2
      cases hf : f v with
      | some t => simp [buildCache, hf, lookupCache, hvne, ih2]
      | none => simp [buildCache, hf, ih2]

end DG

namespace Comp

/-- Environment of the comprehensive script's `setup` (lines 819-882):
the owner login outcome and the created room id per fixture index. -/
structure SetupEnv where
  ownerLogin : Option String
  createRoom : Nat → Option Nat

/-- The fixture-creation loop of the comprehensive `setup` (lines
838-872): ten create-room calls; each created room is recorded and seeded
with 20 initial messages. -/
def createRoomsFrom (env : SetupEnv) : List Nat → List Ev × List Nat
  | [] => ([], [])
  | i :: rest =>
    let rec2 := createRoomsFrom env rest
    match env.createRoom i with
    | some rid =>
      (Ev.createGroup :: Ev.seedMessages rid 20 :: rec2.1, rid :: rec2.2)
    | none => (Ev.createGroup :: rec2.1, rec2.2)

/-- `setup` of the comprehensive script: abort on an unrecognized profile
name (the `.length` access, line 825); otherwise log the owner in,
returning an empty fixture set when that login fails, and create ten
shared rooms otherwise. -/
def compSetup (profileName : String) (env : SetupEnv) :
    List Ev × Except String (List Nat) :=
  match stagesFor compLoadProfiles profileName with
  | none => ([], Except.error configLookupError)
  | some _ =>
    match env.ownerLogin with
    | none => ([Ev.loginCall], Except.ok [])
    | some _ =>
      let rooms := createRoomsFrom env (List.range 10)
      (Ev.loginCall :: rooms.1, Except.ok rooms.2)

end Comp

/-- C6: when the configured profile name matches no entry of
`LOAD_PROFILES`, both the comprehensive and the direct/group script's
`setup` abort with the lookup error before issuing a single HTTP request
(the `.length` access on the undefined lookup throws), so no load is
generated for an unrecognized profile name. -/
theorem c6_unknown_profile_fails_before_load (name : String)
    (envC : Comp.SetupEnv) (envD : DG.SetupEnv)
    (hC : stagesFor compLoadProfiles name = none)
    (hD : stagesFor dgLoadProfiles name = none) :
    Comp.compSetup name envC = ([], Except.error configLookupError) ∧
    DG.dgSetup name envD = ([], Except.error configLookupError) := by
  constructor
  · unfold Comp.compSetup
    rw [hC]
  · unfold DG.dgSetup
    rw [hD]

/-- Witness for C6 at the unrecognized profile name "weekly". -/
theorem c6_unknown_profile_fails_before_load_witness :
    (stagesFor compLoadProfiles "weekly" = none ∧
      stagesFor dgLoadProfiles "weekly" = none) ∧
    (Comp.compSetup "weekly"
        { ownerLogin := some "tok", createRoom := fun _ => none } =
        ([], Except.error configLookupError) ∧
      DG.dgSetup "weekly"
        { loginResult := fun _ => none, retryOwner := none,
          createRoom := fun _ => none } =
        ([], Except.error configLookupError)) :=
  ⟨⟨by decide, by decide⟩,
   c6_unknown_profile_fails_before_load "weekly"
     { ownerLogin := some "tok", createRoom := fun _ => none }
     { loginResult := fun _ => none, retryOwner := none,
       createRoom := fun _ => none }
     (by decide) (by decide)⟩

/-- C7: whenever the profile name is recognized, the direct/group `setup`
completes: each individual seed user's login failure only removes that
user's token from the cache (every other user id is cached exactly when
its own login succeeded), and when the owner's login and its retry both
fail, no shared room fixture is created — the fixture loop that relies on
the owner identity is skipped entirely. -/
theorem c7_setup_tolerates_partial_login_failure (env : DG.SetupEnv)
    (name : String) (h : (stagesFor dgLoadProfiles name).isSome = true) :
    ∃ d : DG.SetupData, (DG.dgSetup name env).2 = Except.ok d ∧
      (∀ uid, uid ∈ DG.userIds → uid ≠ 1 →
        DG.lookupCache d.tokenCache uid = env.loginResult uid) ∧
      (env.loginResult 1 = none → env.retryOwner = none →
        d.sharedRooms = []) := by
  obtain ⟨st, hst⟩ := Option.isSome_iff_exists.mp h
  have hnd : DG.userIds.Nodup := List.nodup_range' 1 100 1 Nat.one_pos
  have hone : (1 : Nat) ∈ DG.userIds := by simp [DG.userIds, List.mem_range']
  have hcache : ∀ uid, uid ∈ DG.userIds →
      DG.lookupCache (DG.buildCache env.loginResult DG.userIds) uid =
        env.loginResult uid :=
    fun uid hmem =>
      DG.lookupCache_buildCache env.loginResult DG.userIds uid hmem hnd
  unfold DG.dgSetup
  rw [hst]
  cases hl : DG.lookupCache (DG.buildCache env.loginResult DG.userIds) 1 with
  | some t =>
    refine ⟨{ tokenCache := DG.buildCache env.loginResult DG.userIds,
              sharedRooms :=
                (DG.createRoomsFrom env (List.range DG.roomSizes.length)).2 },
            ?_, ?_, ?_⟩
    · simp [hl]
    · intro uid hmem _
      exact hcache uid hmem
    · intro h1 _
      rw [hcache 1 hone, h1] at hl
      exact Option.noConfusion hl
  | none =>
    cases hr : env.retryOwner with
    | some t =>
      refine ⟨{ tokenCache := (1, t) :: DG.buildCache env.loginResult
                  DG.userIds,
                sharedRooms :=
                  (DG.createRoomsFrom env
                    (List.range DG.roomSizes.length)).2 },
              ?_, ?_, ?_⟩
      · simp [hl, hr]
      · intro uid hmem hne
        have : ((1 : Nat) == uid) = false := by
          simp [Ne.symm hne]
        simp [DG.lookupCache, this, hcache uid hmem]
      · intro _ h2
        exact Option.noConfusion h2
    | none =>
      refine ⟨{ tokenCache := DG.buildCache env.loginResult DG.userIds,
                sharedRooms := [] }, ?_, ?_, ?_⟩
      · simp [hl, hr]
      · intro uid hmem _
        exact hcache uid hmem
      · intro _ _
        rfl

/-- Witness for C7: profile "full" is recognized; user 50's login fails
while the owner's succeeds. -/
theorem c7_setup_tolerates_partial_login_failure_witness :
    (stagesFor dgLoadProfiles "full").isSome = true ∧
    (∃ d : DG.SetupData,
      (DG.dgSetup "full"
          { loginResult := fun uid => if uid == 50 then none else some "t",
            retryOwner := some "ot", createRoom := fun _ => none }).2 =
        Except.ok d ∧
      (∀ uid, uid ∈ DG.userIds → uid ≠ 1 →
        DG.lookupCache d.tokenCache uid =
          (if uid == 50 then none else some "t")) ∧
      ((if (1 : Nat) == 50 then none else some "t") = (none : Option String) →
        (some "ot" : Option String) = none → d.sharedRooms = [])) :=
  ⟨by decide,
   c7_setup_tolerates_partial_login_failure
     { loginResult := fun uid => if uid == 50 then none else some "t",
       retryOwner := some "ot", createRoom := fun _ => none }
     "full" (by decide)⟩

/-! ## The with-AI script's setup/teardown mismatch (C9) -/

namespace WAI

/-- A value of the object the with-AI script's `setup` returns. -/
inductive SVal
  | rooms (rs : List Nat)
  | time (t : Nat)
  | tokens (m : List (Nat × String))
  deriving DecidableEq, Repr

/-- A JS object as an association list of named fields; a missing key
reads as `undefined`. -/
abbrev SObj := List (String × SVal)

/-- JS property read `data.key`. -/
def lookupKey : SObj → String → Option SVal
  | [], _ => none
  | (k, v) :: rest, key => if k == key then some v else lookupKey rest key

/-- Environment of the with-AI script's `setup` (lines 853-930). -/
structure SetupEnv where
  ownerLogin : Option String
  createRoom : Nat → Option Nat

/-- The ids of the shared rooms the with-AI `setup` loop creates
(lines 885-920). -/
def createdRooms (env : SetupEnv) : List Nat :=
  (List.range 10).filterMap env.createRoom

/-- The object `setup` of the with-AI script returns: `{ sharedRooms: [] }`
when the owner login fails (line 883), otherwise
`{ sharedRooms, startTime }` (lines 926-929).  Neither shape carries a
`tokenCache` field. -/
def waiSetupData (env : SetupEnv) : SObj :=
  match env.ownerLogin with
  | none => [("sharedRooms", SVal.rooms [])]
  | some _ =>
    [("sharedRooms", SVal.rooms (createdRooms env)),
     ("startTime", SVal.time 0)]

/-- The HTTP call the with-AI `teardown` can issue. -/
inductive CleanupEv
  | cleanupCall (token : String)
  deriving DecidableEq, Repr

/-- `teardown` of the with-AI script (lines 990-1018): destructure
`tokenCache` from the setup data and read `tokenCache[1]`.  When the field
is absent, the destructured value is `undefined` and the indexing throws a
TypeError (flag `true`) before the cleanup request is built.  With a token
map present, a missing owner token only logs an error, and an actual token
leads to the cleanup POST. -/
def waiTeardown (data : SObj) : List CleanupEv × Bool :=
  match lookupKey data "tokenCache" with
  | none => ([], true)
  | some (SVal.tokens m) =>
    match DG.lookupCache m 1 with
    | none => ([], false)
    | some tk => ([CleanupEv.cleanupCall tk], false)
  | some _ => ([], false)

end WAI

/-- C9: the with-AI script's `setup` returns only `sharedRooms` (and
`startTime`), never a `tokenCache` field, yet its `teardown` destructures
`tokenCache` from that value and indexes it — so on every run of that
script the indexing throws before the cleanup request is built, and the
administrative cleanup call to `/api/v1/chats/loadtest/cleanup` is never
issued by that script. -/
theorem c9_wai_teardown_never_cleans_up (env : WAI.SetupEnv) :
    WAI.lookupKey (WAI.waiSetupData env) "tokenCache" = none ∧
    WAI.waiTeardown (WAI.waiSetupData env) = ([], true) := by
  obtain ⟨ol, cr⟩ := env
  cases ol <;> exact ⟨rfl, rfl⟩

end MixChat
